import Mathlib

/-!
# Verification of the photo asset pipeline (guangfu250923)

A shallow embedding, in Lean 4, of the photo asset pipeline of the
`guangfu250923` disaster-relief API:

* the local disk cache (`internal/localcache`): content-addressed path
  derivation (`PhotoPath`, `ThumbPath`), the atomic `Save`, `Exists`;
* the object-store client (`internal/storage`): `Upload` with its
  `io.LimitedReader` size cap, `GetObject`, `PresignGet` (network effects
  are oracles);
* the HTTP handlers (`internal/handlers/photos.go`): `UploadPhoto`,
  `GetPhoto`, `GetPhotoThumbnail`, including the thumbnail-spec parser,
  the multi-tier fallback chain, the 32 MiB decode cap, the
  no-upscale rule, the proportional-height computation, and the
  cache-control directives of every response.

Go strings are modelled as `List Char`, byte streams as `List Nat`.
External collaborators (the metadata store, the S3 network protocol, the
stdlib image decoder/encoders, the filesystem) are modelled as explicit
oracle inputs: every branch the Go code takes on their results is
represented by a boolean or data field of an environment record, and the
handler is a pure function of that environment.
-/

namespace Guangfu

/-- Byte streams (file contents, request/response bodies). -/
abbrev Bytes := List Nat

/-- Go strings, modelled as their character sequence. -/
abbrev Str := List Char

/-! ## Image transcoder: proportional height (photos.go lines 250-251, 410-411)

The Go code computes
`height := int(float64(b.Dy()) * (float64(width) / float64(b.Dx())))`
and then `if height <= 0 { height = 1 }`.  The `float64` arithmetic is
modelled faithfully as IEEE-754 binary64 with round-to-nearest-even: a
positive finite value is a 53-bit significand times a power of two.  The
exponent is unbounded in the model — overflow, underflow and subnormals
are unreachable for image dimensions — and only nonnegative values arise
(dimensions of a decoded image are nonnegative; a zero factor makes the
whole product zero, modelled as significand 0).  The `int(...)`
conversion truncates toward zero. -/

set_option maxRecDepth 4000

/-- Fuel-based binary logarithm (`Nat.log2` is defined by well-founded
recursion, which the kernel cannot reduce; this structural version
computes the same floor of log2 for positive inputs). -/
def natLog2Aux : Nat → Nat → Nat
  | 0, _ => 0
  | fuel + 1, n => if n ≥ 2 then natLog2Aux fuel (n / 2) + 1 else 0

/-- Floor of the binary logarithm. -/
def natLog2 (n : Nat) : Nat := natLog2Aux n n

/-- A nonnegative finite binary64 value: significand `m` times `2 ^ e`.
Normal form: `m = 0`, or `2^52 ≤ m < 2^53`. -/
structure Fp where
  m : Nat
  e : Int

/-- The integer `il` with `2 ^ il ≤ num / den < 2 ^ (il + 1)` for positive
`num`, `den`. -/
def fpILog2 (num den : Nat) : Int :=
  let ln : Int := natLog2 num
  let ld : Int := natLog2 den
  if num * 2 ^ natLog2 den ≥ den * 2 ^ natLog2 num then ln - ld else ln - ld - 1

/-- Round the positive rational `num / den` to the nearest binary64 value,
ties to even: scale into `[2^52, 2^53)`, divide with remainder, round. -/
def fpFromRat (num den : Nat) : Fp :=
  if num = 0 ∨ den = 0 then ⟨0, 0⟩
  else
    let e := fpILog2 num den - 52
    let nscaled : Nat := if e ≥ 0 then num else num * 2 ^ (-e).toNat
    let dscaled : Nat := if e ≥ 0 then den * 2 ^ e.toNat else den
    let q := nscaled / dscaled
    let r := nscaled % dscaled
    let m :=
      if 2 * r > dscaled then q + 1
      else if 2 * r < dscaled then q
      else if q % 2 = 0 then q else q + 1
    if m = 2 ^ 53 then ⟨2 ^ 52, e + 1⟩ else ⟨m, e⟩

/-- `float64(n)` for a natural number. -/
def fpOfNat (n : Nat) : Fp := fpFromRat n 1

/-- Correctly rounded binary64 division of nonnegative values. -/
def fpDiv (a b : Fp) : Fp :=
  if a.m = 0 ∨ b.m = 0 then ⟨0, 0⟩
  else
    let d := a.e - b.e
    if d ≥ 0 then fpFromRat (a.m * 2 ^ d.toNat) b.m
    else fpFromRat a.m (b.m * 2 ^ (-d).toNat)

/-- Correctly rounded binary64 multiplication of nonnegative values. -/
def fpMul (a b : Fp) : Fp :=
  if a.m = 0 ∨ b.m = 0 then ⟨0, 0⟩
  else
    let s := a.e + b.e
    if s ≥ 0 then fpFromRat (a.m * b.m * 2 ^ s.toNat) 1
    else fpFromRat (a.m * b.m) (2 ^ (-s).toNat)

/-- Go's `int(x)` conversion on a nonnegative binary64 value: truncation
toward zero. -/
def fpTruncNat (a : Fp) : Nat :=
  if a.e ≥ 0 then a.m * 2 ^ a.e.toNat else a.m / 2 ^ (-a.e).toNat

/-- Height of a generated thumbnail, translated from
`height := int(float64(b.Dy()) * (float64(width) / float64(b.Dx()))); if height <= 0 { height = 1 }`
(photos.go lines 250-251 and 410-411), in binary64 arithmetic. -/
def computeHeight (dy dx width : Nat) : Nat :=
  let h := fpTruncNat (fpMul (fpOfNat dy) (fpDiv (fpOfNat width) (fpOfNat dx)))
  if h ≤ 0 then 1 else h

/-- The height computation the spec describes:
`round(nativeHeight * requestedWidth / nativeWidth)`, floored to at least 1,
in exact arithmetic. -/
def specHeight (dy dx width : Nat) : Nat :=
  max 1 (round ((dy * width : ℚ) / (dx : ℚ))).toNat

/-- C2: counterexample. The claim says the output height is
`round(nativeHeight * requestedWidth / nativeWidth)` (floored to at least 1);
for a 3-high, 2-wide source requested at width 1 (native width 2 exceeds
requested width 1, and every float64 value involved is exact) the code
computes `int(3 * 0.5) = 1` while the claimed formula gives
`round(1.5) = 2`. -/
theorem claim2_counterexample :
    (1 : Nat) < 2 ∧ computeHeight 3 2 1 ≠ specHeight 3 2 1 := by
  refine ⟨by norm_num, ?_⟩
  have h1 : computeHeight 3 2 1 = 1 := by decide
  have h2 : specHeight 3 2 1 = 2 := by
    unfold specHeight
    rw [round_eq]
    norm_num
    rfl
  omega

/-- C2 (amended): the output height is the binary64 truncation
`int(float64(dy) * (float64(width)/float64(dx)))`, floored to at least 1:
it truncates rather than rounds, and follows float64 rounding rather than
exact rational arithmetic.  Concretely: the instance named by the spec
holds — a
1000-wide, 500-high source at width 200 yields exactly 100 — while a
10-wide, 90-high source at width 7 yields 62 where exact truncation would
give `90 * 7 / 10 = 63` (in Go, `90 * (7.0 / 10.0)` is
`62.99999999999999...`). -/
theorem claim2_theorem :
    (∀ dy dx width : Nat, 1 ≤ computeHeight dy dx width) ∧
    computeHeight 500 1000 200 = 100 ∧
    (computeHeight 90 10 7 = 62 ∧ 90 * 7 / 10 = 63) := by
  refine ⟨?_, by decide, by decide, by norm_num⟩
  intro dy dx width
  simp only [computeHeight]
  split_ifs with h <;> omega

/-! ## Thumbnail spec parsing (GetPhotoThumbnail, photos.go lines 318-337)

The route parameter must be `w<digits>`.  The Go loop
`for i := 0; i < len(widthStr); i++ { width = width*10 + int(widthStr[i]-48) }`
accumulates into a 64-bit signed `int`, whose overflow wraps; we model the
wrap as arithmetic modulo `2^64` on the unsigned representative.  The range
check `width <= 0 || width > 4096` on the signed value rejects exactly the
wrapped values outside `[1, 4096]` (values at or above `2^63` read as
negative and are rejected by `width <= 0`). -/

/-- The Go 64-bit word modulus. -/
def wordMod : Nat := 2 ^ 64

/-- The width-accumulation loop of photos.go line 336, with Go's wrapping
64-bit arithmetic modelled modulo `2^64`. -/
def goWidth (ds : Str) : Nat :=
  ds.foldl (fun w c => (w * 10 + (c.toNat - 48)) % wordMod) 0

/-- The numeric value a digit string denotes, with unbounded arithmetic
(the width the spec says the token denotes). -/
def decValue (ds : Str) : Nat :=
  ds.foldl (fun w c => w * 10 + (c.toNat - 48)) 0

/-- The spec validation of `GetPhotoThumbnail` (photos.go lines 320-337):
prefix `w`, nonempty all-digit remainder, wrapped width in `1..4096`.
Returns the accepted width, or `none` when the handler responds 400. -/
def parseSpec (spec : Str) : Option Nat :=
  match spec with
  | [] => none
  | c :: rest =>
    if c ≠ 'w' then none
    else if rest = [] then none
    else if !rest.all Char.isDigit then none
    else
      let w := goWidth rest
      if 1 ≤ w ∧ w ≤ 4096 then some w else none

/-- Folding with a reduction modulo `2^64` at every step agrees with reducing
the unbounded fold once at the end. -/
theorem goWidth_foldl_mod (ds : Str) :
    ∀ a : Nat,
      List.foldl (fun w c => (w * 10 + (c.toNat - 48)) % wordMod) (a % wordMod) ds
        = (List.foldl (fun w c => w * 10 + (c.toNat - 48)) a ds) % wordMod := by
  induction ds with
  | nil => intro a; rfl
  | cons c cs ih =>
    intro a
    simp only [List.foldl_cons]
    have hstep : (a % wordMod * 10 + (c.toNat - 48)) % wordMod
        = (a * 10 + (c.toNat - 48)) % wordMod :=
      ((Nat.mod_modEq a wordMod).mul_right 10).add_right (c.toNat - 48)
    rw [hstep, ih (a * 10 + (c.toNat - 48))]

/-- `goWidth` computes the denoted value modulo `2^64`. -/
theorem goWidth_eq_decValue_mod (ds : Str) : goWidth ds = decValue ds % wordMod := by
  have h := goWidth_foldl_mod ds 0
  rw [Nat.zero_mod] at h
  exact h

/-- On digit strings denoting a value below `2^64`, the Go loop computes the
denoted value exactly. -/
theorem goWidth_eq_decValue (ds : Str) (h : decValue ds < wordMod) :
    goWidth ds = decValue ds := by
  rw [goWidth_eq_decValue_mod, Nat.mod_eq_of_lt h]

/-! ## Local disk cache: path derivation (internal/localcache, `PhotoPath` / `ThumbPath`)

Paths are Go strings built with `filepath.Join`, which joins its non-empty
elements with `/` and then lexically cleans the result (`path.Clean`):
empty and `.` components are dropped, and a `..` component removes the
non-`..` component before it (a leading `..` of a relative path is kept).
All paths built here are relative (they start at `.cache`), so the
rooted-path branch of Go's `Clean` never arises and is not modelled. -/

/-- Modelled from the spec: stands in for `crypto/sha256` plus
`hex.EncodeToString` (external library calls in `PhotoPath`/`ThumbPath`).
The digest is modelled as a deterministic function of the key producing 64
lowercase hexadecimal characters; every theorem below relies only on this
determinism and on the output alphabet and length, never on any
cryptographic property. -/
def sha256hex (s : Str) : Str :=
  let seed := s.foldl (fun a c => (a * 131 + c.toNat + 7) % 1000000007) 17
  (List.range 64).map (fun i => Nat.digitChar ((seed + 2654435761 * (i + 1)) % 16))

/-- Lowercase hexadecimal alphabet. -/
def isHexChar (c : Char) : Bool := c.isDigit || (decide ('a' ≤ c) && decide (c ≤ 'f'))

/-- `Nat.digitChar` of a value reduced mod 16 is a hex character. -/
theorem digitChar_mod16_hex (n : Nat) : isHexChar (Nat.digitChar (n % 16)) = true := by
  have h : n % 16 < 16 := Nat.mod_lt _ (by norm_num)
  set m := n % 16 with hm
  interval_cases m <;> decide

/-- The modelled digest has 64 characters. -/
theorem sha256hex_length (s : Str) : (sha256hex s).length = 64 := by
  simp [sha256hex]

/-- Every character of the modelled digest is hexadecimal. -/
theorem sha256hex_hex (s : Str) : ∀ c ∈ sha256hex s, isHexChar c = true := by
  intro c hc
  simp only [sha256hex, List.mem_map] at hc
  obtain ⟨i, _, rfl⟩ := hc
  exact digitChar_mod16_hex _

/-- `filepath.Base` (Unix): `.` for the empty path, `/` for an all-separator
path, otherwise the part after the final separator with trailing separators
removed. -/
def goBase (p : Str) : Str :=
  if p = [] then ['.']
  else
    let r := p.reverse.dropWhile (fun c => c = '/')
    if r = [] then ['/']
    else (r.takeWhile (fun c => ¬ c = '/')).reverse

/-- One step of Go's lexical `path.Clean` over the component list of a
relative path: drop empty and `.` components; `..` removes the preceding
component unless there is none or it is itself a kept `..`. -/
def cleanStep (acc : List Str) (c : Str) : List Str :=
  if c = [] then acc
  else if c = ['.'] then acc
  else if c = ['.', '.'] then
    if acc = [] then acc ++ [c]
    else if acc.getLast! = ['.', '.'] then acc ++ [c]
    else acc.dropLast
  else acc ++ [c]

/-- The cleaned component list of a relative path. -/
def cleanComponents (cs : List Str) : List Str := cs.foldl cleanStep []

/-- Go's `path.Clean` on a relative path: split on `/`, clean the
components, rejoin (an empty result is `.`). -/
def cleanPath (p : Str) : Str :=
  match cleanComponents (p.splitOn '/') with
  | [] => ['.']
  | c :: cs => List.intercalate ['/'] (c :: cs)

/-- `filepath.Join`: empty elements are skipped, the rest are joined with
`/` and the result is cleaned.  (Dropping empties before joining is
equivalent to Go's skipping of leading empties, because `Clean` discards
the empty components interior empties would produce.) -/
def goJoin (elems : List Str) : Str :=
  cleanPath (List.intercalate ['/'] (elems.filter (fun e => ¬ e = [])))

/-- The base cache directory (`localcache.Dir`). -/
def cacheDir : Str := ".cache".data

/-- The two-hex-character sharding directory (`hexsum[:2]`). -/
def keyShard (objectKey : Str) : Str := (sha256hex objectKey).take 2

/-- The cached file's name: the key's base name, or the full digest when the
base name is degenerate (`"."`, the separator, or empty) — handlers.go
lines 36-39 and 48-51. -/
def cacheFilename (objectKey : Str) : Str :=
  let filename := goBase objectKey
  if filename = ['.'] ∨ filename = ['/'] ∨ filename = [] then sha256hex objectKey else filename

/-- `localcache.PhotoPath` (handlers.go lines 30-41):
`filepath.Join(Dir(), "photos", shard, filename)`. -/
def photoPath (objectKey : Str) : Str :=
  goJoin [cacheDir, "photos".data, keyShard objectKey, cacheFilename objectKey]

/-- `localcache.ThumbPath` (handlers.go lines 44-54):
`filepath.Join(Dir(), "thumbs", spec, shard, filename)`. -/
def thumbPath (objectKey spec : Str) : Str :=
  goJoin [cacheDir, "thumbs".data, spec, keyShard objectKey, cacheFilename objectKey]

/-- A component that `Clean` passes through unchanged: nonempty, not `.`,
not `..`, and containing no separator. -/
def GoodComp (c : Str) : Prop :=
  c ≠ [] ∧ c ≠ ['.'] ∧ c ≠ ['.', '.'] ∧ '/' ∉ c

instance (c : Str) : Decidable (GoodComp c) := by
  unfold GoodComp
  infer_instance

/-- A size specification actually produced by the handlers: `w` followed by
at least one decimal digit (`fmt.Sprintf("w%d", width)` in `GetPhoto`, and
the validated `:w` route parameter in `GetPhotoThumbnail`). -/
def ValidSpec (s : Str) : Prop :=
  ∃ ds, s = 'w' :: ds ∧ ds ≠ [] ∧ ∀ c ∈ ds, c.isDigit = true

/-- `goBase` never produces a string containing the separator, except the
all-separator result `"/"` itself. -/
theorem goBase_no_slash (p : Str) (h : goBase p ≠ ['/']) : '/' ∉ goBase p := by
  simp only [goBase] at h ⊢
  split_ifs at h ⊢ with h1 h2
  · decide
  · exact absurd rfl h
  · intro hm
    rw [List.mem_reverse] at hm
    have := List.mem_takeWhile_imp hm
    simp at this

/-- The digest is a clean path component. -/
theorem sha256hex_good (s : Str) : GoodComp (sha256hex s) := by
  have hlen := sha256hex_length s
  refine ⟨?_, ?_, ?_, ?_⟩
  · intro h0; rw [h0] at hlen; simp at hlen
  · intro h0; rw [h0] at hlen; simp at hlen
  · intro h0; rw [h0] at hlen; simp at hlen
  · intro hm
    have := sha256hex_hex s _ hm
    simp [isHexChar] at this

/-- The shard is a clean path component. -/
theorem keyShard_good (s : Str) : GoodComp (keyShard s) := by
  have hlen : (keyShard s).length = 2 := by
    simp [keyShard, List.length_take, sha256hex_length]
  have hhex : ∀ c ∈ keyShard s, isHexChar c = true :=
    fun c hc => sha256hex_hex s c (List.mem_of_mem_take hc)
  refine ⟨?_, ?_, ?_, ?_⟩
  · intro h0; rw [h0] at hlen; simp at hlen
  · intro h0; rw [h0] at hlen; simp at hlen
  · intro h0
    have : isHexChar '.' = true := hhex '.' (by rw [h0]; exact List.mem_cons_self _ _)
    simp [isHexChar] at this
  · intro hm
    have := hhex '/' hm
    simp [isHexChar] at this

/-- The cached file name is a clean path component whenever the key's base
name is not `..` (true of every key the system writes, which have the shape
`photos/<uuid><ext>`). -/
theorem cacheFilename_good (k : Str) (hk : goBase k ≠ ['.', '.']) :
    GoodComp (cacheFilename k) := by
  simp only [cacheFilename]
  split_ifs with hcase
  · exact sha256hex_good k
  · push_neg at hcase
    obtain ⟨h1, h2, h3⟩ := hcase
    exact ⟨h3, h1, hk, goBase_no_slash k h2⟩

/-- A handler-produced size specification is a clean path component. -/
theorem validSpec_good (s : Str) (hs : ValidSpec s) : GoodComp s := by
  obtain ⟨ds, rfl, _, hd⟩ := hs
  refine ⟨by simp, ?_, ?_, ?_⟩
  · intro h; simp only [List.cons.injEq] at h; exact absurd h.1 (by decide)
  · intro h; simp only [List.cons.injEq] at h; exact absurd h.1 (by decide)
  · intro hm
    rcases List.mem_cons.mp hm with h | h
    · exact absurd h (by decide)
    · exact absurd (hd '/' h) (by decide)

/-- `Clean` leaves a sequence of clean components untouched. -/
theorem foldl_cleanStep_good (cs : List Str) (h : ∀ c ∈ cs, GoodComp c) :
    ∀ acc, cs.foldl cleanStep acc = acc ++ cs := by
  induction cs with
  | nil => intro acc; simp
  | cons c cs ih =>
    intro acc
    have hc := h c (List.mem_cons_self c cs)
    have hstep : cleanStep acc c = acc ++ [c] := by
      unfold cleanStep
      rw [if_neg hc.1, if_neg hc.2.1, if_neg hc.2.2.1]
    simp only [List.foldl_cons, hstep]
    rw [ih (fun x hx => h x (List.mem_cons_of_mem c hx)) (acc ++ [c])]
    simp

/-- `cleanComponents` is the identity on clean components. -/
theorem cleanComponents_good (cs : List Str) (h : ∀ c ∈ cs, GoodComp c) :
    cleanComponents cs = cs := by
  unfold cleanComponents
  rw [foldl_cleanStep_good cs h []]
  simp

/-- On a nonempty list of clean components, `filepath.Join` is plain
interpolation with the separator. -/
theorem goJoin_good (cs : List Str) (hne : cs ≠ []) (h : ∀ c ∈ cs, GoodComp c) :
    goJoin cs = List.intercalate ['/'] cs := by
  unfold goJoin
  have hfilter : cs.filter (fun e => ¬ e = []) = cs :=
    List.filter_eq_self.mpr (fun a ha => by simp [(h a ha).1])
  rw [hfilter]
  unfold cleanPath
  have hsplit : List.splitOn '/' (List.intercalate ['/'] cs) = cs :=
    List.splitOn_intercalate cs '/' (fun l hl => (h l hl).2.2.2) hne
  obtain ⟨c0, cs0, rfl⟩ : ∃ c0 cs0, cs = c0 :: cs0 := by
    cases cs with
    | nil => exact absurd rfl hne
    | cons a b => exact ⟨a, b, rfl⟩
  rw [hsplit, cleanComponents_good _ h]

/-- Splitting a joined clean component list recovers the components. -/
theorem splitOn_goJoin (cs : List Str) (hne : cs ≠ []) (h : ∀ c ∈ cs, GoodComp c) :
    List.splitOn '/' (goJoin cs) = cs := by
  rw [goJoin_good cs hne h]
  exact List.splitOn_intercalate cs '/' (fun l hl => (h l hl).2.2.2) hne

/-- The component decomposition of a thumbnail path. -/
theorem thumbPath_components (k s : Str) (hs : ValidSpec s) (hk : goBase k ≠ ['.', '.']) :
    List.splitOn '/' (thumbPath k s)
      = [cacheDir, "thumbs".data, s, keyShard k, cacheFilename k] := by
  apply splitOn_goJoin
  · simp
  · intro c hc
    simp only [List.mem_cons, List.not_mem_nil, or_false] at hc
    rcases hc with rfl | rfl | rfl | rfl | rfl
    · exact (by decide : GoodComp cacheDir)
    · exact (by decide : GoodComp "thumbs".data)
    · exact validSpec_good _ hs
    · exact keyShard_good k
    · exact cacheFilename_good k hk

/-- The component decomposition of an original path. -/
theorem photoPath_components (k : Str) (hk : goBase k ≠ ['.', '.']) :
    List.splitOn '/' (photoPath k)
      = [cacheDir, "photos".data, keyShard k, cacheFilename k] := by
  apply splitOn_goJoin
  · simp
  · intro c hc
    simp only [List.mem_cons, List.not_mem_nil, or_false] at hc
    rcases hc with rfl | rfl | rfl | rfl
    · exact (by decide : GoodComp cacheDir)
    · exact (by decide : GoodComp "photos".data)
    · exact keyShard_good k
    · exact cacheFilename_good k hk

/-- C8: cache-path derivation is a pure function of `(object_key, spec|none)`:
the same arguments always give the same path; for a fixed key two distinct
size specifications (the `w<digits>` tokens the handlers produce) give
distinct thumbnail paths; and a thumbnail path never equals an original
path.  `goBase k ≠ ".."` holds for every key the system writes (keys have
the shape `photos/<uuid><ext>`). -/
theorem claim8_theorem (k k2 s s₁ s₂ : Str)
    (hs : ValidSpec s) (hs₁ : ValidSpec s₁) (hs₂ : ValidSpec s₂)
    (hk : goBase k ≠ ['.', '.']) (hk2 : goBase k2 ≠ ['.', '.']) :
    thumbPath k s = thumbPath k s ∧
    photoPath k = photoPath k ∧
    (s₁ ≠ s₂ → thumbPath k s₁ ≠ thumbPath k s₂) ∧
    thumbPath k s ≠ photoPath k2 := by
  refine ⟨rfl, rfl, ?_, ?_⟩
  · intro hne heq
    have h1 := thumbPath_components k s₁ hs₁ hk
    have h2 := thumbPath_components k s₂ hs₂ hk
    rw [heq, h2] at h1
    simp only [List.cons.injEq] at h1
    exact hne h1.2.2.1.symm
  · intro heq
    have h1 := thumbPath_components k s hs hk
    have h2 := photoPath_components k2 hk2
    rw [heq, h2] at h1
    have := congrArg List.length h1
    simp at this

/-- C8: witness at the concrete key `photos/abc.jpg` and the specs `w100`
and `w300`. -/
theorem claim8_witness :
    ValidSpec "w100".data ∧ ValidSpec "w300".data ∧
    goBase "photos/abc.jpg".data ≠ ['.', '.'] ∧
    ("w100".data ≠ "w300".data →
      thumbPath "photos/abc.jpg".data "w100".data
        ≠ thumbPath "photos/abc.jpg".data "w300".data) ∧
    thumbPath "photos/abc.jpg".data "w100".data ≠ photoPath "photos/abc.jpg".data := by
  have hv1 : ValidSpec "w100".data := ⟨['1', '0', '0'], rfl, by decide, by decide⟩
  have hv2 : ValidSpec "w300".data := ⟨['3', '0', '0'], rfl, by decide, by decide⟩
  have hb : goBase "photos/abc.jpg".data ≠ ['.', '.'] := by decide
  have h := claim8_theorem "photos/abc.jpg".data "photos/abc.jpg".data
    "w100".data "w100".data "w300".data hv1 hv1 hv2 hb hb
  exact ⟨hv1, hv2, hb, h.2.2.1, h.2.2.2⟩

/-! ## Local disk cache: atomic save (`localcache.Save`, handlers.go lines 62-86) -/

/-- Decimal digits of a natural number, as printed by `%d`. -/
def natDigits (n : Nat) : Str := Nat.toDigits 10 n

/-- The temporary file name `fmt.Sprintf("%s.tmp-%d", path, os.Getpid())`
(handlers.go line 66): a function of the destination path and the process
id only — nothing else distinguishes concurrent writers. -/
def tmpName (path : Str) (pid : Nat) : Str := path ++ ".tmp-".data ++ natDigits pid

/-- The temporary name never equals the destination path. -/
theorem tmpName_ne (path : Str) (pid : Nat) : tmpName path pid ≠ path := by
  intro h
  have hlen := congrArg List.length h
  have h5 : (".tmp-".data).length = 5 := by decide
  simp only [tmpName, List.length_append, h5] at hlen
  omega

/-- A filesystem: a partial map from paths to file contents. -/
def Fs := Str → Option Bytes

/-- Point update of a filesystem. -/
def fsSet (fs : Fs) (p : Str) (v : Option Bytes) : Fs :=
  fun q => if q = p then v else fs q

/-- Failure oracle for one `Save` call: which of the fallible operations
(`os.MkdirAll`, `os.Create`, `io.Copy`, `Close`, `os.Rename`, and the
`os.Remove` cleanup of the temporary file) succeed, and how much of the
content a failing copy managed to write. -/
structure SaveEnv where
  mkdirOk : Bool
  createOk : Bool
  writeOk : Bool
  closeOk : Bool
  renameOk : Bool
  removeOk : Bool
  partialLen : Nat

/-- `localcache.Save` (handlers.go lines 62-86) as a state transformer on
the filesystem; the second component is whether an error was returned.  On
a copy, close, or rename failure the code calls `os.Remove` on the
temporary file but IGNORES that call’s result (`_ = os.Remove(tmp)`,
lines 74, 78, 82): when the removal itself fails, the temporary file stays
behind.  A successful `os.Rename` atomically replaces the destination with
the temporary file’s content. -/
def save (e : SaveEnv) (fs : Fs) (path : Str) (content : Bytes) (pid : Nat) : Fs × Bool :=
  if ¬ e.mkdirOk then (fs, true)
  else if ¬ e.createOk then (fs, true)
  else
    let tmp := tmpName path pid
    let fs1 := fsSet fs tmp (some (if e.writeOk then content else content.take e.partialLen))
    let removed := if e.removeOk then fsSet fs1 tmp none else fs1
    if ¬ e.writeOk then (removed, true)
    else if ¬ e.closeOk then (removed, true)
    else if ¬ e.renameOk then (removed, true)
    else (fsSet (fsSet fs1 tmp none) path (some content), false)

/-- C9: the code evaluated at the failing input.  Two concurrent `Save`
calls to the same cache path issued by the same process (one server
instance is one process, pid 42 here) derive the *same* temporary file
name, `<path>.tmp-42` — the name depends on nothing that distinguishes the
two writers, so their temporary files collide instead of being distinct. -/
theorem claim9_theorem :
    tmpName ".cache/photos/ab/x.jpg".data 42 = tmpName ".cache/photos/ab/x.jpg".data 42 ∧
    tmpName ".cache/photos/ab/x.jpg".data 42 = ".cache/photos/ab/x.jpg.tmp-42".data := by
  exact ⟨rfl, by decide⟩

/-- A sample filesystem holding one file at the destination. -/
def sampleFs : Fs := fun q => if q = "dest".data then some [9] else none

/-- The oracle of a save whose copy fails after one byte and whose
temporary-file removal also fails. -/
def saveEnvRemoveFail : SaveEnv := ⟨true, true, false, true, true, false, 1⟩

/-- C10: counterexample.  When the copy fails and the ignored `os.Remove`
also fails, `Save` returns an error and leaves the destination unchanged,
but the partially-written temporary file REMAINS on disk — contradicting
the claim that the temporary file never remains. -/
theorem claim10_counterexample :
    (save saveEnvRemoveFail sampleFs "dest".data [1, 2] 7).2 = true ∧
    (save saveEnvRemoveFail sampleFs "dest".data [1, 2] 7).1 "dest".data
      = sampleFs "dest".data ∧
    (save saveEnvRemoveFail sampleFs "dest".data [1, 2] 7).1 (tmpName "dest".data 7)
      = some [1] := by
  refine ⟨rfl, by decide, by decide⟩

/-- C10 (amended): if `Save` returns an error, the destination path is
left unchanged — any file previously there keeps its prior contents and no
new file appears; and whenever the (result-ignored) `os.Remove` cleanup
succeeds, no new file remains at the temporary name either.  When the
removal itself fails, a partially-written temporary file can remain. -/
theorem claim10_theorem (e : SaveEnv) (fs : Fs) (path : Str) (content : Bytes) (pid : Nat)
    (herr : (save e fs path content pid).2 = true) :
    (save e fs path content pid).1 path = fs path ∧
    (e.removeOk = true →
      ((save e fs path content pid).1 (tmpName path pid) = none ∨
        (save e fs path content pid).1 (tmpName path pid) = fs (tmpName path pid))) := by
  have hne : ¬ path = tmpName path pid := fun h => tmpName_ne path pid h.symm
  unfold save at herr ⊢
  split_ifs at herr ⊢ <;> simp_all [fsSet, hne]

/-- C10: witness.  A save whose rename fails but whose cleanup succeeds
reports the error, leaves the destination’s prior contents in place, and
leaves no temporary file. -/
theorem claim10_witness :
    (save ⟨true, true, true, true, false, true, 0⟩ sampleFs "dest".data [1, 2] 7).2 = true ∧
    ((save ⟨true, true, true, true, false, true, 0⟩ sampleFs "dest".data [1, 2] 7).1 "dest".data
        = sampleFs "dest".data ∧
      ((true : Bool) = true →
        ((save ⟨true, true, true, true, false, true, 0⟩ sampleFs "dest".data [1, 2] 7).1
            (tmpName "dest".data 7) = none ∨
          (save ⟨true, true, true, true, false, true, 0⟩ sampleFs "dest".data [1, 2] 7).1
            (tmpName "dest".data 7) = sampleFs (tmpName "dest".data 7)))) :=
  ⟨rfl, claim10_theorem ⟨true, true, true, true, false, true, 0⟩ sampleFs "dest".data [1, 2] 7 rfl⟩

/-! ## Object store upload (`storage.Upload`, part_003 lines 64-96) -/

/-- Result of one `Upload` call: the bytes the store persisted and whether
the call returned an error. -/
structure S3PutResult where
  stored : Bytes
  isErr : Bool

/-- `S3Uploader.Upload`: wraps the body in
`io.LimitedReader{R: r, N: u.maxBytes + 1}` (part_003 line 73) and hands it
to the SDK uploader, which reads until EOF.  A `LimitedReader` yields a
silent EOF once its limit is reached, so the store receives at most
`maxBytes + 1` bytes and the upload reports success; `storeOk` is the
network oracle for the SDK call. -/
def s3Upload (clientOk : Bool) (key : Str) (body : Bytes) (maxBytes : Nat)
    (storeOk : Bool) : S3PutResult :=
  if ¬ clientOk then ⟨[], true⟩
  else if key = [] then ⟨[], true⟩
  else if ¬ storeOk then ⟨[], true⟩
  else ⟨body.take (maxBytes + 1), false⟩

/-- The `UploadPhoto` declared-size gate (photos.go lines 56-60): rejects
with 413 only when the client-declared multipart size exceeds the
ceiling. -/
def uploadSizeGateRejects (declared maxBytes : Int) : Bool :=
  maxBytes > 0 && declared > 0 && declared > maxBytes

/-- C4: counterexample.  A 6-byte body uploaded with a declared size of 3
and a 4-byte ceiling passes the declared-size gate, and the store-layer
transfer does NOT fail: the upload returns success and silently stores the
truncated first `ceiling + 1 = 5` bytes. -/
theorem claim4_counterexample :
    uploadSizeGateRejects 3 4 = false ∧
    ([0, 1, 2, 3, 4, 5] : Bytes).length > 4 ∧
    (s3Upload true ['k'] [0, 1, 2, 3, 4, 5] 4 true).isErr = false ∧
    (s3Upload true ['k'] [0, 1, 2, 3, 4, 5] 4 true).stored = [0, 1, 2, 3, 4] := by
  decide

/-- C4 (amended): the storage layer limits the transfer to `ceiling + 1`
bytes, so at most `maxBytes + 1` bytes are ever persisted, and an
oversized stream is stored truncated to exactly `maxBytes + 1` bytes —
detectably above the ceiling — but the upload operation returns success,
not an error. -/
theorem claim4_theorem (key : Str) (body : Bytes) (maxBytes : Nat) (hk : key ≠ []) :
    (s3Upload true key body maxBytes true).isErr = false ∧
    (s3Upload true key body maxBytes true).stored.length = min body.length (maxBytes + 1) ∧
    (body.length > maxBytes →
      (s3Upload true key body maxBytes true).stored.length = maxBytes + 1) := by
  simp only [s3Upload, not_true, if_neg, if_false, hk]
  refine ⟨by simp [hk], ?_, ?_⟩
  · simp [hk, List.length_take, Nat.min_comm]
  · intro hbig
    simp [hk, List.length_take]
    omega

/-- C4: witness at the concrete oversized body. -/
theorem claim4_witness :
    (['k'] : Str) ≠ [] ∧
    (s3Upload true ['k'] [3, 3, 3, 3, 3, 3, 3] 4 true).isErr = false ∧
    (s3Upload true ['k'] [3, 3, 3, 3, 3, 3, 3] 4 true).stored.length
      = min ([3, 3, 3, 3, 3, 3, 3] : Bytes).length (4 + 1) ∧
    (([3, 3, 3, 3, 3, 3, 3] : Bytes).length > 4 →
      (s3Upload true ['k'] [3, 3, 3, 3, 3, 3, 3] 4 true).stored.length = 4 + 1) :=
  ⟨by decide, claim4_theorem ['k'] [3, 3, 3, 3, 3, 3, 3] 4 (by decide)⟩

/-! ## Retrieval handlers: the fallback chain (photos.go `GetPhoto`, `GetPhotoThumbnail`)

The handlers are modelled as pure functions of an oracle environment that
fixes every observation the Go code makes of its collaborators (cache
existence checks, S3 calls, the stdlib decoder/encoders, save results).
`image.Decode`, the nearest-neighbor resample loop and the
`png`/`jpeg` encoders are stdlib collaborators: their outcomes
(`decodeOk`, `dx`, `dy`, `formatPng`, `encodeOk`, `encodedBytes`) are
oracle fields, while everything the handler itself computes (control flow,
statuses, cache directives, which bytes go where, the resized height via
`computeHeight`) is modelled explicitly. -/

/-- Cache directives set by the handlers. -/
inductive CacheCtl
  | immutableLong
  | privateShort
deriving DecidableEq

/-- How a response's payload is delivered. -/
inductive RespBody
  | fileBytes (bs : Bytes)
  | dataBytes (bs : Bytes)
  | redirectPresigned
  | redirectPublic
  | errJson
deriving DecidableEq

/-- An HTTP response together with the observable side effects of the
request: whether the metadata row was queried, whether any object-store
call was made, whether and on what input `image.Decode` ran, what was
persisted at the thumbnail cache path, and the dimensions of a resize. -/
structure Resp where
  status : Nat
  cc : Option CacheCtl
  body : RespBody
  dbLookup : Bool
  storeCalled : Bool
  decodeCalled : Bool := false
  decodeInput : Bytes := []
  savedThumb : Option Bytes := none
  savedOriginal : Option Bytes := none
  resized : Option (Nat × Nat) := none
deriving DecidableEq

/-- The decode-input ceiling `32 << 20` (photos.go lines 221, 381). -/
def limit32MiB : Nat := 32 * 1024 * 1024

/-- Oracle environment for one thumbnail-serving request. -/
structure ThumbEnv where
  thumbCached : Bool
  srcCached : Bool
  srcOpenOk : Bool
  s3Present : Bool
  fetchOk : Bool
  presignOk : Bool
  readOk : Bool
  srcBytes : Bytes
  cachedThumbBytes : Bytes
  decodeOk : Bool
  dx : Nat
  dy : Nat
  formatPng : Bool
  encodeOk : Bool
  encodedBytes : Bytes
  saveOk : Bool

/-- Whether the handler obtains a source stream: the cached original when
present and openable, otherwise an object-store fetch when available
(photos.go lines 199-206 and 353-363). -/
def srcObtained (e : ThumbEnv) : Bool :=
  (e.srcCached && e.srcOpenOk) || (e.s3Present && e.fetchOk)

/-- Whether `GetObject` was called while obtaining the source. -/
def getObjectCalled (e : ThumbEnv) : Bool :=
  !(e.srcCached && e.srcOpenOk) && e.s3Present

/-- The shared thumbnail-serving flow: photos.go lines 189-275 (the
thumbnail branch of `GetPhoto`) and lines 345-443 (`GetPhotoThumbnail`
after validation and lookup).  The two differ only in a content-type
fallback on one no-upscale reply, which no modelled observable depends
on. -/
def thumbFlow (e : ThumbEnv) (width : Nat) : Resp :=
  if e.thumbCached then
    { status := 200, cc := some .immutableLong, body := .fileBytes e.cachedThumbBytes,
      dbLookup := true, storeCalled := false }
  else if srcObtained e then
    if e.readOk then
      let data := e.srcBytes.take limit32MiB
      if e.decodeOk then
        if e.dx ≤ width then
          if e.saveOk then
            { status := 200, cc := some .immutableLong, body := .fileBytes data,
              dbLookup := true, storeCalled := getObjectCalled e,
              decodeCalled := true, decodeInput := data, savedThumb := some data }
          else
            { status := 200, cc := none, body := .dataBytes data,
              dbLookup := true, storeCalled := getObjectCalled e,
              decodeCalled := true, decodeInput := data }
        else
          if e.encodeOk then
            if e.saveOk then
              { status := 200, cc := some .immutableLong, body := .dataBytes e.encodedBytes,
                dbLookup := true, storeCalled := getObjectCalled e,
                decodeCalled := true, decodeInput := data,
                savedThumb := some e.encodedBytes,
                resized := some (width, computeHeight e.dy e.dx width) }
            else
              { status := 200, cc := some .privateShort, body := .dataBytes e.encodedBytes,
                dbLookup := true, storeCalled := getObjectCalled e,
                decodeCalled := true, decodeInput := data,
                resized := some (width, computeHeight e.dy e.dx width) }
          else
            { status := 500, cc := none, body := .errJson,
              dbLookup := true, storeCalled := getObjectCalled e,
              decodeCalled := true, decodeInput := data,
              resized := some (width, computeHeight e.dy e.dx width) }
      else
        if e.s3Present && e.presignOk then
          { status := 302, cc := some .privateShort, body := .redirectPresigned,
            dbLookup := true, storeCalled := true,
            decodeCalled := true, decodeInput := data }
        else
          { status := 400, cc := none, body := .errJson,
            dbLookup := true, storeCalled := getObjectCalled e || e.s3Present,
            decodeCalled := true, decodeInput := data }
    else
      { status := 500, cc := none, body := .errJson,
        dbLookup := true, storeCalled := getObjectCalled e }
  else
    if e.s3Present && e.presignOk then
      { status := 302, cc := some .privateShort, body := .redirectPresigned,
        dbLookup := true, storeCalled := true }
    else
      { status := 503, cc := none, body := .errJson,
        dbLookup := true, storeCalled := getObjectCalled e || e.s3Present }

/-- Oracle environment for the original (non-thumbnail) flow. -/
structure OrigEnv where
  cached : Bool
  s3Present : Bool
  fetchOk : Bool
  saveOk : Bool
  refetchOk : Bool
  copyOk : Bool
  presignOk : Bool
  cachedBytes : Bytes
  fetchedBytes : Bytes

/-- The original-serving flow of `GetPhoto` (photos.go lines 278-313):
cache hit → immutable file; miss → fetch and cache (immutable file), or on
a failed cache write re-fetch and stream without caching (short private);
if fetching is impossible, redirect to a presigned link (short private),
and as the final fallback redirect to the stored `public_url` — which the
code marks long-lived immutable.  (When the streaming copy fails midway
the code falls through to the redirect attempts; the model follows that
control flow.) -/
def originalFlow (e : OrigEnv) : Resp :=
  if e.cached then
    { status := 200, cc := some .immutableLong, body := .fileBytes e.cachedBytes,
      dbLookup := true, storeCalled := false }
  else if e.s3Present && e.fetchOk then
    if e.saveOk then
      { status := 200, cc := some .immutableLong, body := .fileBytes e.fetchedBytes,
        dbLookup := true, storeCalled := true, savedOriginal := some e.fetchedBytes }
    else if e.refetchOk && e.copyOk then
      { status := 200, cc := some .privateShort, body := .dataBytes e.fetchedBytes,
        dbLookup := true, storeCalled := true }
    else if e.presignOk then
      { status := 302, cc := some .privateShort, body := .redirectPresigned,
        dbLookup := true, storeCalled := true }
    else
      { status := 302, cc := some .immutableLong, body := .redirectPublic,
        dbLookup := true, storeCalled := true }
  else if e.s3Present && e.presignOk then
    { status := 302, cc := some .privateShort, body := .redirectPresigned,
      dbLookup := true, storeCalled := true }
  else
    { status := 302, cc := some .immutableLong, body := .redirectPublic,
      dbLookup := true, storeCalled := e.s3Present }

/-- `strings.TrimSpace(strings.ToLower(q))` (photos.go line 173); Go's
Unicode space set is modelled by `Char.isWhitespace`. -/
def goTrimLower (s : Str) : Str :=
  (((s.map Char.toLower).dropWhile Char.isWhitespace).reverse.dropWhile
    Char.isWhitespace).reverse

/-- The `thumbnail` query-selector switch (photos.go lines 174-187):
`small` 100, `large` 1200, `original` 0, everything else — including the
empty and unknown selectors — `medium` 300. -/
def selectorWidth (sel : Str) : Nat :=
  let t := goTrimLower sel
  if t = [] then 300
  else if t = "medium".data then 300
  else if t = "small".data then 100
  else if t = "large".data then 1200
  else if t = "original".data then 0
  else 300

/-- The 404 response when the metadata lookup misses. -/
def notFoundResp : Resp :=
  { status := 404, cc := none, body := .errJson, dbLookup := true, storeCalled := false }

/-- The 400 response for a malformed thumbnail spec: issued before the
metadata lookup and before any store call (photos.go lines 320-337). -/
def badRequestResp : Resp :=
  { status := 400, cc := none, body := .errJson, dbLookup := false, storeCalled := false }

/-- `GetPhoto` (photos.go lines 163-314): metadata lookup, then either the
thumbnail flow at the selector's width or the original flow. -/
def getPhoto (found : Bool) (sel : Str) (te : ThumbEnv) (oe : OrigEnv) : Resp :=
  if ¬ found then notFoundResp
  else if selectorWidth sel > 0 then thumbFlow te (selectorWidth sel)
  else originalFlow oe

/-- `GetPhotoThumbnail` (photos.go lines 318-443): spec validation first
(400 before any lookup or store call), then metadata lookup, then the
thumbnail flow at the accepted width. -/
def getPhotoThumbnail (spec : Str) (found : Bool) (te : ThumbEnv) : Resp :=
  match parseSpec spec with
  | none => badRequestResp
  | some w => if ¬ found then notFoundResp else thumbFlow te w

/-- An environment in which every collaborator succeeds. -/
def envAllOk : ThumbEnv :=
  { thumbCached := true, srcCached := true, srcOpenOk := true, s3Present := true,
    fetchOk := true, presignOk := true, readOk := true, srcBytes := [],
    cachedThumbBytes := [], decodeOk := true, dx := 10, dy := 10,
    formatPng := false, encodeOk := true, encodedBytes := [], saveOk := true }

/-- A thumbnail request whose source read fails mid-stream while a cached
source exists and the presigner works. -/
def envReadFail : ThumbEnv := { envAllOk with thumbCached := false, readOk := false }

/-- A thumbnail request whose source does not decode. -/
def envDecodeFail : ThumbEnv := { envAllOk with thumbCached := false, decodeOk := false }

/-- A no-upscale thumbnail request whose cache write fails. -/
def envNoUpSaveFail : ThumbEnv :=
  { envAllOk with thumbCached := false, dx := 50, saveOk := false }

/-- A resize-needing thumbnail request whose cache write fails. -/
def envResizeSaveFail : ThumbEnv :=
  { envAllOk with thumbCached := false, dx := 500, saveOk := false }

/-- A small source needing no upscale. -/
def envSmallSrc : ThumbEnv :=
  { envAllOk with thumbCached := false, srcBytes := [7, 8, 9], dx := 50 }

/-- A source one byte above the decode ceiling. -/
def bigSrcBytes : Bytes := List.replicate (limit32MiB + 1) 0

/-- A thumbnail request over the over-ceiling source. -/
def envBigSrc : ThumbEnv := { envAllOk with thumbCached := false, srcBytes := bigSrcBytes }

/-- An original request with every tier unavailable (no cache entry, no
object-store client). -/
def origEnvNoS3 : OrigEnv :=
  { cached := false, s3Present := false, fetchOk := false, saveOk := false,
    refetchOk := false, copyOk := false, presignOk := false,
    cachedBytes := [], fetchedBytes := [] }

/-- C5: counterexample.  A source one byte above the 32 MiB ceiling is not
rejected before decoding: the handler proceeds to call the decoder (on the
silently truncated prefix). -/
theorem claim5_counterexample :
    bigSrcBytes.length > limit32MiB ∧ (thumbFlow envBigSrc 100).decodeCalled = true := by
  constructor
  · simp [bigSrcBytes]
  · rfl

/-- C5 (amended): the thumbnail path bounds the decode input to the first
`min(size, 32 MiB)` bytes of the source — the decoder never receives more
than 32 MiB — but an over-ceiling source is silently truncated rather than
rejected: whenever a source stream is obtained and read, the decoder is
invoked. -/
theorem claim5_theorem (e : ThumbEnv) (w : Nat) :
    ((thumbFlow e w).decodeCalled = true →
      (thumbFlow e w).decodeInput = e.srcBytes.take limit32MiB ∧
      (thumbFlow e w).decodeInput.length ≤ limit32MiB) ∧
    (e.thumbCached = false → srcObtained e = true → e.readOk = true →
      (thumbFlow e w).decodeCalled = true) := by
  have hlen : (e.srcBytes.take limit32MiB).length ≤ limit32MiB := by
    simp [List.length_take]
  unfold thumbFlow
  split_ifs <;> simp_all

/-- C5: witness.  With a small source obtained and read, the decoder runs
and its input is the (un-truncated) source. -/
theorem claim5_witness :
    (envSmallSrc.thumbCached = false ∧ srcObtained envSmallSrc = true ∧
      envSmallSrc.readOk = true) ∧
    (thumbFlow envSmallSrc 100).decodeCalled = true :=
  ⟨by decide, (claim5_theorem envSmallSrc 100).2 rfl rfl rfl⟩

/-- An over-ceiling source whose (truncated) decode reports a small native
width, so the no-upscale branch runs. -/
def envBigNoUp : ThumbEnv :=
  { envAllOk with thumbCached := false, dx := 50, srcBytes := bigSrcBytes }

/-- C6: counterexample.  For a source one byte above the 32 MiB decode
ceiling whose truncated prefix still decodes with native width 50 (a valid
image followed by trailing data), the no-upscale branch caches and serves
the 32 MiB *truncated prefix*, not the original source bytes — the bytes
cached under the thumbnail key differ from the source. -/
theorem claim6_counterexample :
    bigSrcBytes.length > limit32MiB ∧
    envBigNoUp.dx ≤ 100 ∧ envBigNoUp.decodeOk = true ∧
    (thumbFlow envBigNoUp 100).savedThumb = some (bigSrcBytes.take limit32MiB) ∧
    (thumbFlow envBigNoUp 100).savedThumb ≠ some bigSrcBytes := by
  have hsaved : (thumbFlow envBigNoUp 100).savedThumb
      = some (bigSrcBytes.take limit32MiB) := rfl
  refine ⟨by simp [bigSrcBytes], by decide, by decide, hsaved, ?_⟩
  rw [hsaved]
  intro h
  rw [Option.some.injEq] at h
  have h2 : (bigSrcBytes.take limit32MiB).length = bigSrcBytes.length := by rw [h]
  simp only [List.length_take, bigSrcBytes, List.length_replicate] at h2
  omega

/-- C6 (amended): when the decoded native width is at or below the
requested width, the served bytes and any bytes persisted under the
thumbnail cache key are exactly the bytes that were read — the source
truncated to the 32 MiB decode cap — with no re-encode; they equal the
original source bytes exactly when the source is within the cap. -/
theorem claim6_theorem (e : ThumbEnv) (w : Nat)
    (h1 : e.thumbCached = false) (h2 : srcObtained e = true) (h3 : e.readOk = true)
    (h4 : e.decodeOk = true) (h5 : e.dx ≤ w) :
    ((thumbFlow e w).body = .fileBytes (e.srcBytes.take limit32MiB) ∨
      (thumbFlow e w).body = .dataBytes (e.srcBytes.take limit32MiB)) ∧
    (∀ b, (thumbFlow e w).savedThumb = some b → b = e.srcBytes.take limit32MiB) ∧
    (e.srcBytes.length ≤ limit32MiB → e.srcBytes.take limit32MiB = e.srcBytes) := by
  refine ⟨?_, ?_, fun h6 => List.take_of_length_le h6⟩ <;>
    (unfold thumbFlow; by_cases hs : e.saveOk <;> split_ifs <;> simp_all)

/-- C6: witness at a concrete 3-byte source of native width 50 requested at
width 100: the source is within the cap, so the cached and served bytes
are exactly the source bytes. -/
theorem claim6_witness :
    (envSmallSrc.thumbCached = false ∧ srcObtained envSmallSrc = true ∧
      envSmallSrc.readOk = true ∧ envSmallSrc.decodeOk = true ∧
      envSmallSrc.dx ≤ 100) ∧
    (((thumbFlow envSmallSrc 100).body
        = .fileBytes (envSmallSrc.srcBytes.take limit32MiB) ∨
      (thumbFlow envSmallSrc 100).body
        = .dataBytes (envSmallSrc.srcBytes.take limit32MiB)) ∧
      (∀ b, (thumbFlow envSmallSrc 100).savedThumb = some b →
        b = envSmallSrc.srcBytes.take limit32MiB) ∧
      (envSmallSrc.srcBytes.length ≤ limit32MiB →
        envSmallSrc.srcBytes.take limit32MiB = envSmallSrc.srcBytes)) :=
  ⟨by decide, claim6_theorem envSmallSrc 100 rfl rfl rfl rfl (by decide)⟩

/-- C7: counterexample.  The digit string `18446744073709551716` denotes
`2^64 + 100`, far above 4096, so the claim requires a 400 rejection; but
the handler's accumulation loop wraps at 64 bits, computes width `100`,
accepts the spec, and proceeds to the metadata lookup. -/
theorem claim7_counterexample :
    decValue "18446744073709551716".data > 4096 ∧
    parseSpec "w18446744073709551716".data = some 100 ∧
    (getPhotoThumbnail "w18446744073709551716".data true envAllOk).status ≠ 400 ∧
    (getPhotoThumbnail "w18446744073709551716".data true envAllOk).dbLookup = true := by
  refine ⟨by decide, by decide, ?_, ?_⟩ <;> decide

/-- C7 (amended): a malformed spec (no `w` prefix, empty or non-digit
remainder) or one whose *wrapped 64-bit* width falls outside `1..4096` is
rejected with 400 before the metadata lookup and before any store call;
every accepted width lies in `1..4096`; and for digit strings denoting a
value below `2^64` (every realistic request) the wrapped width equals the
denoted width, so acceptance is exactly `1 <= denoted width <= 4096`. -/
theorem claim7_theorem (spec : Str) (found : Bool) (te : ThumbEnv) :
    (parseSpec spec = none →
      (getPhotoThumbnail spec found te).status = 400 ∧
      (getPhotoThumbnail spec found te).dbLookup = false ∧
      (getPhotoThumbnail spec found te).storeCalled = false) ∧
    (∀ w, parseSpec spec = some w → 1 ≤ w ∧ w ≤ 4096) ∧
    (∀ ds, spec = 'w' :: ds → ds ≠ [] → (∀ c ∈ ds, c.isDigit = true) →
      decValue ds < wordMod →
      parseSpec spec
        = if 1 ≤ decValue ds ∧ decValue ds ≤ 4096 then some (decValue ds) else none) := by
  refine ⟨?_, ?_, ?_⟩
  · intro h
    simp [getPhotoThumbnail, h, badRequestResp]
  · intro w h
    match spec with
    | [] => simp [parseSpec] at h
    | c :: rest =>
      simp only [parseSpec] at h
      split_ifs at h with h1 h2 h3 h4
      simp only [Option.some.injEq] at h
      omega
  · intro ds hspec hne hdig hlt
    subst hspec
    have hall : ds.all Char.isDigit = true := List.all_eq_true.mpr hdig
    simp only [parseSpec, hall, hne, goWidth_eq_decValue ds hlt]
    simp

/-- C7: witness.  The three malformed specs of the spec's test list —
`abc`, `w0`, `w99999` — are all rejected with 400 before any lookup or
store call. -/
theorem claim7_witness :
    parseSpec "abc".data = none ∧
    ((getPhotoThumbnail "abc".data true envAllOk).status = 400 ∧
      (getPhotoThumbnail "abc".data true envAllOk).dbLookup = false ∧
      (getPhotoThumbnail "abc".data true envAllOk).storeCalled = false) ∧
    parseSpec "w0".data = none ∧ parseSpec "w99999".data = none := by
  have h := claim7_theorem "abc".data true envAllOk
  exact ⟨by decide, h.1 (by decide), by decide, by decide⟩

/-- C1: counterexample.  A thumbnail request whose source read fails
mid-stream returns 500 even though the local cache held the source and the
presigner works — contradicting "5xx only when the local cache misses AND
the store fetch fails AND presigning fails". -/
theorem claim1_counterexample :
    500 ≤ (getPhotoThumbnail "w100".data true envReadFail).status ∧
    envReadFail.srcCached = true ∧ envReadFail.srcOpenOk = true ∧
    envReadFail.s3Present = true ∧ envReadFail.presignOk = true := by
  decide

/-- C1 (amended): a thumbnail-serving request reports 5xx only when the
thumbnail cache misses and either (a) a source was obtained but reading it
failed, or the resized image failed to encode (500 in both cases, even
with a working presigner), or (b) no source was obtainable and no
presigned redirect was available (503).  A decode failure with a working
presigner yields a presigned redirect, never an error status; when no
source is obtainable a working presigner likewise yields the redirect; and
the original (non-thumbnail) path never returns 5xx — its final fallback
is a redirect to the stored public URL.  The endpoint wrappers add only
400/404 outcomes. -/
theorem claim1_theorem (e : ThumbEnv) (oe : OrigEnv) (w : Nat) (found : Bool)
    (sel spec : Str) :
    (500 ≤ (thumbFlow e w).status →
      e.thumbCached = false ∧
      ((srcObtained e = true ∧
          (e.readOk = false ∨ (e.decodeOk = true ∧ ¬ e.dx ≤ w ∧ e.encodeOk = false))) ∨
        (srcObtained e = false ∧ (e.s3Present && e.presignOk) = false))) ∧
    ((originalFlow oe).status < 500) ∧
    (e.thumbCached = false → srcObtained e = true → e.readOk = true →
      e.decodeOk = false → e.s3Present = true → e.presignOk = true →
      (thumbFlow e w).status = 302 ∧ (thumbFlow e w).body = .redirectPresigned) ∧
    (e.thumbCached = false → srcObtained e = false →
      (e.s3Present && e.presignOk) = true →
      (thumbFlow e w).status = 302 ∧ (thumbFlow e w).body = .redirectPresigned) ∧
    (e.thumbCached = false → srcObtained e = false →
      (e.s3Present && e.presignOk) = false →
      (thumbFlow e w).status = 503) ∧
    (getPhoto found sel e oe = notFoundResp ∨
      getPhoto found sel e oe = thumbFlow e (selectorWidth sel) ∨
      getPhoto found sel e oe = originalFlow oe) ∧
    (getPhotoThumbnail spec found e = badRequestResp ∨
      getPhotoThumbnail spec found e = notFoundResp ∨
      ∃ w2, parseSpec spec = some w2 ∧ getPhotoThumbnail spec found e = thumbFlow e w2) := by
  refine ⟨?_, ?_, ?_, ?_, ?_, ?_, ?_⟩
  · unfold thumbFlow
    split_ifs <;> simp_all
  · unfold originalFlow
    split_ifs <;> simp
  · intro a b c d f g
    unfold thumbFlow
    split_ifs <;> simp_all
  · intro a b c
    unfold thumbFlow
    split_ifs <;> simp_all
  · intro a b c
    unfold thumbFlow
    split_ifs <;> simp_all
  · unfold getPhoto
    split_ifs <;> simp
  · unfold getPhotoThumbnail
    cases hp : parseSpec spec with
    | none => simp
    | some w2 =>
      split_ifs <;> simp

/-- C1: witness.  With a cached source that decodes to an unsupported
format and a working presigner, the thumbnail request degrades to a
presigned redirect. -/
theorem claim1_witness :
    (envDecodeFail.thumbCached = false ∧ srcObtained envDecodeFail = true ∧
      envDecodeFail.readOk = true ∧ envDecodeFail.decodeOk = false ∧
      envDecodeFail.s3Present = true ∧ envDecodeFail.presignOk = true) ∧
    ((thumbFlow envDecodeFail 100).status = 302 ∧
      (thumbFlow envDecodeFail 100).body = .redirectPresigned) :=
  ⟨by decide,
    (claim1_theorem envDecodeFail origEnvNoS3 100 true [] []).2.2.1
      rfl rfl rfl rfl rfl rfl⟩

/-- C3: counterexample.  A no-upscale thumbnail whose cache write fails is
served 200 with NO cache directive at all (the claim requires a short
private directive on every response whose bytes could not be cached); and
the original path's final fallback — a redirect to the stored public URL —
carries the long-lived immutable directive (the claim requires every
redirect to carry the short private directive). -/
theorem claim3_counterexample :
    (thumbFlow envNoUpSaveFail 100).savedThumb = none ∧
    (thumbFlow envNoUpSaveFail 100).status = 200 ∧
    (thumbFlow envNoUpSaveFail 100).cc = none ∧
    (originalFlow origEnvNoS3).body = .redirectPublic ∧
    (originalFlow origEnvNoS3).cc = some .immutableLong := by
  decide

set_option maxHeartbeats 2000000 in
/-- C3 (amended): cache directives by outcome.  Thumbnail flow: cache hits
and successfully-persisted derivatives are long-lived immutable; presigned
redirects are short private; a resized thumbnail whose persist failed is
short private; but a *no-upscale* original whose persist failed is served
with no cache directive at all.  Original flow: cache hits, fetch-and-
cache successes, and the final public-URL redirect are long-lived
immutable (the public-URL redirect thus violates the redirects-are-private
rule); presigned redirects and the stream-without-cache fallback are short
private. -/
theorem claim3_theorem (e : ThumbEnv) (oe : OrigEnv) (w : Nat) :
    (e.thumbCached = true → (thumbFlow e w).cc = some .immutableLong) ∧
    ((thumbFlow e w).savedThumb ≠ none → (thumbFlow e w).cc = some .immutableLong) ∧
    ((thumbFlow e w).body = .redirectPresigned → (thumbFlow e w).cc = some .privateShort) ∧
    (e.thumbCached = false → srcObtained e = true → e.readOk = true → e.decodeOk = true →
      e.dx ≤ w → e.saveOk = false → (thumbFlow e w).cc = none) ∧
    (e.thumbCached = false → srcObtained e = true → e.readOk = true → e.decodeOk = true →
      ¬ e.dx ≤ w → e.encodeOk = true → e.saveOk = false →
      (thumbFlow e w).cc = some .privateShort) ∧
    (oe.cached = true → (originalFlow oe).cc = some .immutableLong) ∧
    ((originalFlow oe).savedOriginal ≠ none → (originalFlow oe).cc = some .immutableLong) ∧
    ((originalFlow oe).body = .redirectPresigned → (originalFlow oe).cc = some .privateShort) ∧
    ((originalFlow oe).body = .redirectPublic → (originalFlow oe).cc = some .immutableLong) ∧
    ((originalFlow oe).body = .dataBytes oe.fetchedBytes →
      (originalFlow oe).cc = some .privateShort) := by
  refine ⟨?_, ?_, ?_, ?_, ?_, ?_, ?_, ?_, ?_, ?_⟩
  · unfold thumbFlow
    split_ifs <;> simp_all
  · unfold thumbFlow
    split_ifs <;> simp_all
  · unfold thumbFlow
    split_ifs <;> simp_all
  · unfold thumbFlow
    split_ifs <;> simp_all
  · unfold thumbFlow
    split_ifs <;> simp_all
  · unfold originalFlow
    split_ifs <;> simp_all
  · unfold originalFlow
    split_ifs <;> simp_all
  · unfold originalFlow
    split_ifs <;> simp_all
  · unfold originalFlow
    split_ifs <;> simp_all
  · unfold originalFlow
    split_ifs <;> simp_all

/-- C3: witness.  A resized thumbnail whose persist failed is served with
the short private directive. -/
theorem claim3_witness :
    ((envResizeSaveFail.thumbCached = false ∧ srcObtained envResizeSaveFail = true ∧
      envResizeSaveFail.readOk = true ∧ envResizeSaveFail.decodeOk = true ∧
      ¬ envResizeSaveFail.dx ≤ 100 ∧ envResizeSaveFail.encodeOk = true ∧
      envResizeSaveFail.saveOk = false)) ∧
    (thumbFlow envResizeSaveFail 100).cc = some .privateShort :=
  ⟨by decide,
    (claim3_theorem envResizeSaveFail origEnvNoS3 100).2.2.2.2.1
      rfl rfl rfl rfl (by decide) rfl rfl⟩

end Guangfu
